import Mathlib

/-!
# php-crypto stream wrapper (`crypto_stream.c`): shallow embedding

The stream functions of `crypto_stream.c` are embedded as pure functions with
explicit state passing.

* A PHP string (`Z_STRVAL`, `Z_STRLEN`) is the list of its bytes; the buffer is
  terminated by a NUL byte that is not part of the list.
* OpenSSL and the cipher helpers of `php_crypto_alg.h` are not part of this
  file of the repository; what they return is a parameter (`Engine`, `BIOops`).
* An `EVP_CIPHER_CTX` is the record of how it was initialised together with
  the sequence of helper calls made on it.
* Error reports made through `php_crypto_error` / `php_crypto_error_ex` are
  appended to a log, oldest first.
-/

namespace CryptoStream

/-! ## C strings and zvals -/

/-- Byte string: the `Z_STRLEN` bytes of a PHP string value. -/
abbrev Bytes := List Nat

/-- Bytes of an ASCII literal. -/
def cstr (s : String) : Bytes := s.toList.map Char.toNat

/-- `INT_MAX` for a 32-bit `int`. -/
def INT_MAX : Nat := 2147483647

/-- C `strncmp` on NUL-terminated buffers: at most `n` bytes are compared and
the comparison stops at the first difference or at a NUL byte. Reading the
position just behind the listed bytes yields the terminating NUL. The result is
the difference of the first differing bytes (only its sign is specified by C). -/
def strncmp : Bytes → Bytes → Nat → Int
  | _, _, 0 => 0
  | s1, s2, n + 1 =>
    let c1 := s1.headD 0
    let c2 := s2.headD 0
    if c1 ≠ c2 then (c1 : Int) - (c2 : Int)
    else if c1 = 0 then 0
    else strncmp s1.tail s2.tail n

/-- Key of a PHP array entry. -/
inductive ZKey where
  | idx (n : Int)
  | str (s : Bytes)
  deriving DecidableEq, Repr

/-- PHP value (`zval`), by `Z_TYPE`. `other` stands for the types the stream
code never inspects (double, object, resource). -/
inductive Zval where
  | null
  | bool (b : Bool)
  | long (n : Int)
  | string (s : Bytes)
  | array (ht : List (ZKey × Zval))
  | other

/-- PHP array (`HashTable`): its entries in iteration order. -/
abbrev HashTable := List (ZKey × Zval)

/-- Lookup by string key, `zend_hash_find`: `none` is `FAILURE`. -/
def zend_hash_find : HashTable → Bytes → Option Zval
  | [], _ => none
  | (k, v) :: rest, key => if k = ZKey.str key then some v else zend_hash_find rest key

/-! ## Errors of the `Stream` class -/

/-- Error codes of `PHP_CRYPTO_ERROR_INFO_BEGIN(Stream)`. -/
inductive StreamError where
  | SEEK_OPERATION_FORBIDDEN
  | SEEK_OFFSET_HIGH
  | FILTERS_CONTEXT_TYPE_INVALID
  | FILTERS_ITEM_CONTEXT_TYPE_INVALID
  | FILTER_TYPE_NOT_SUPPLIED
  | FILTER_TYPE_INVALID
  | FILTER_TYPE_UNKNOWN
  | CIPHER_CONTEXT_TYPE_INVALID
  | CIPHER_ACTION_NOT_SUPPLIED
  | CIPHER_ACTION_INVALID
  | CIPHER_ALGORITHM_NOT_SUPPLIED
  | CIPHER_ALGORITHM_TYPE_INVALID
  | CIPHER_KEY_NOT_SUPPLIED
  | CIPHER_KEY_TYPE_INVALID
  | CIPHER_KEY_LENGTH_INVALID
  | CIPHER_IV_NOT_SUPPLIED
  | CIPHER_IV_TYPE_INVALID
  | CIPHER_IV_LENGTH_INVALID
  | CIPHER_TAG_FORBIDDEN
  | CIPHER_TAG_USELESS
  | CIPHER_AAD_USELESS
  deriving DecidableEq, Repr

/-- Entries declared with `PHP_CRYPTO_ERROR_INFO_ENTRY_EX(..., E_NOTICE)`. -/
def StreamError.is_notice : StreamError → Bool
  | .CIPHER_TAG_USELESS => true
  | .CIPHER_AAD_USELESS => true
  | _ => false

/-- One report: `php_crypto_error` carries no argument, `php_crypto_error_ex`
carries the integer that fills the `%d` of the message. -/
structure ErrorReport where
  code : StreamError
  arg : Option Int
  deriving DecidableEq, Repr

/-- Report made by `php_crypto_error(PHP_CRYPTO_STREAM_ERROR_ARGS(code))`. -/
def php_crypto_error (code : StreamError) : ErrorReport := ⟨code, none⟩

/-- Report made by `php_crypto_error_ex(PHP_CRYPTO_STREAM_ERROR_ARGS(code), arg)`. -/
def php_crypto_error_ex (code : StreamError) (arg : Int) : ErrorReport := ⟨code, some arg⟩

/-- `SUCCESS` / `FAILURE` of the Zend API. -/
inductive ZendResult where
  | SUCCESS
  | FAILURE
  deriving DecidableEq, Repr

/-- Executions that leave defined behaviour. -/
inductive Fault where
  /-- a `zval **` that is `NULL` is dereferenced -/
  | null_deref
  deriving DecidableEq, Repr

deriving instance DecidableEq for Except

/-! ## Cipher engine and transform chain -/

/-- Handle of a resolved cipher algorithm (`const EVP_CIPHER *`). -/
structure EVP_CIPHER where
  nid : Nat
  deriving DecidableEq, Repr

/-- The field of `php_crypto_cipher_mode` that the stream code reads. -/
structure php_crypto_cipher_mode where
  auth_enc : Bool
  deriving DecidableEq, Repr

/-- Helper call made on a cipher context, with the arguments as passed:
the byte string behind the pointer (`none` for `NULL`) and the length. -/
inductive CtxCall where
  | set_tag (tag : Bytes) (tag_len : Int)
  | write_aad (aad : Option Bytes) (aad_len : Int)
  deriving DecidableEq, Repr

/-- Cipher context of a cipher BIO: the arguments of `BIO_set_cipher` and the
helper calls made on the context since, oldest first. -/
structure EVP_CIPHER_CTX where
  cipher : EVP_CIPHER
  key : Bytes
  iv : Bytes
  enc : Int
  calls : List CtxCall
  deriving DecidableEq, Repr

/-- What the stream code asks of OpenSSL and of `php_crypto_alg.h`.
`true` stands for `SUCCESS` in the two helper results. `zval_str` is what the
`str` member of the value union holds (bytes behind the pointer, length) in a
zval of another type than string: the `tag` and `aad` entries are read through
`Z_STRVAL` / `Z_STRLEN` without a type check. -/
structure Engine where
  php_crypto_get_cipher_algorithm_from_params :
    Bytes → Option Zval → Option Zval → Option EVP_CIPHER
  EVP_CIPHER_key_length : EVP_CIPHER → Int
  EVP_CIPHER_iv_length : EVP_CIPHER → Int
  php_crypto_get_cipher_mode : EVP_CIPHER → php_crypto_cipher_mode
  php_crypto_cipher_set_tag :
    EVP_CIPHER_CTX → php_crypto_cipher_mode → Bytes → Int → Bool
  php_crypto_cipher_write_aad : EVP_CIPHER_CTX → Option Bytes → Int → Bool
  zval_str : Zval → Bytes × Int

/-- The macro `Z_STRVAL`: the bytes of a string, and for any other type what
the `str.val` member of the union points to. -/
def Z_STRVAL (E : Engine) : Zval → Bytes
  | .string s => s
  | z => (E.zval_str z).1

/-- The macro `Z_STRLEN`: the length of a string, and for any other type the
content of the `str.len` member of the union. -/
def Z_STRLEN (E : Engine) : Zval → Int
  | .string s => s.length
  | z => (E.zval_str z).2

/-- Handle returned by `BIO_new_file(realpath, mode)`. -/
structure FileBIO where
  path : Bytes
  mode : Bytes
  pos : Int
  deriving DecidableEq, Repr

/-- Transform chain: cipher BIOs linked through `next_bio` down to the file
BIO, whose `next_bio` is `NULL`. -/
inductive BIO where
  | file (f : FileBIO)
  | cipher (ctx : EVP_CIPHER_CTX) (next_bio : BIO)
  deriving DecidableEq, Repr

/-- The struct `php_crypto_stream_data`. -/
structure php_crypto_stream_data where
  bio : BIO
  auth_enc : Bool
  deriving DecidableEq, Repr

/-- State threaded through the configuration code: the stream data being
built and the error reports made so far. -/
structure ConfigState where
  data : php_crypto_stream_data
  errors : List ErrorReport
  deriving DecidableEq, Repr

/-- Append one report to the log. -/
def ConfigState.report (st : ConfigState) (r : ErrorReport) : ConfigState :=
  { st with errors := st.errors ++ [r] }

/-- The test of lines 182-184 on the `action` entry. `none`: the condition of
the `if` holds (`CIPHER_ACTION_INVALID`); `some enc`: it does not, and `enc` is
the value of the variable afterwards (initially `1`, overwritten by the result
of the second `strncmp` when the first one did not match). -/
def cipher_action_enc (pz_action : Zval) : Option Int :=
  match pz_action with
  | .string a =>
    if strncmp a (cstr "encrypt") ((cstr "encrypt").length + 1 - 1) = 0 then some 1
    else
      let enc := strncmp a (cstr "decrypt") ((cstr "decrypt").length + 1 - 1)
      if enc = 0 then some enc else none
  | _ => none

/-- Lines 269-275: the pointer and the length passed to
`php_crypto_cipher_write_aad`. `pz_tag` / `pz_aad` are `none` for a `NULL`
pointer. With an `aad` entry the pointer is `Z_STRVAL_PP(ppz_aad)` and the
length is `Z_STRLEN_PP(ppz_tag)` (line 271); without one they are `NULL`, `0`. -/
def write_aad_args (E : Engine) (pz_tag pz_aad : Option Zval) :
    Except Fault (Option Bytes × Int) :=
  match pz_aad with
  | some aad =>
    match pz_tag with
    | none => .error Fault.null_deref
    | some tag => .ok (some (Z_STRVAL E aad), Z_STRLEN E tag)
  | none => .ok (none, 0)

/-- Replaces the context of the node on top of the chain under construction. -/
def ConfigState.with_ctx (st : ConfigState) (ctx : EVP_CIPHER_CTX) (next : BIO) : ConfigState :=
  { st with data := { st.data with bio := BIO.cipher ctx next } }

/-- Lines 269-278: the associated data is written to the context `ctx` of the
new node. -/
def set_cipher_write_aad (E : Engine) (st : ConfigState) (ctx : EVP_CIPHER_CTX) (next : BIO)
    (pz_tag pz_aad : Option Zval) : Except Fault (ZendResult × ConfigState) :=
  match write_aad_args E pz_tag pz_aad with
  | .error f => .error f
  | .ok (aad, aad_len) =>
    let ctx2 := { ctx with calls := ctx.calls ++ [CtxCall.write_aad aad aad_len] }
    if E.php_crypto_cipher_write_aad ctx aad aad_len then
      .ok (ZendResult.SUCCESS, st.with_ctx ctx2 next)
    else .ok (ZendResult.FAILURE, st.with_ctx ctx2 next)

/-- Lines 259-281: the tag and the associated data are handed to the context
of the node that was just pushed (`st.data.bio` is `BIO.cipher ctx next`). -/
def set_cipher_tag_aad (E : Engine) (st : ConfigState) (ctx : EVP_CIPHER_CTX) (next : BIO)
    (mode : php_crypto_cipher_mode) (pz_tag pz_aad : Option Zval) :
    Except Fault (ZendResult × ConfigState) :=
  if pz_tag.isSome || pz_aad.isSome then
    match pz_tag with
    | some tag =>
      let ctx1 :=
        { ctx with calls := ctx.calls ++ [CtxCall.set_tag (Z_STRVAL E tag) (Z_STRLEN E tag)] }
      if E.php_crypto_cipher_set_tag ctx mode (Z_STRVAL E tag) (Z_STRLEN E tag) then
        set_cipher_write_aad E st ctx1 next pz_tag pz_aad
      else .ok (ZendResult.FAILURE, st.with_ctx ctx1 next)
    | none => set_cipher_write_aad E st ctx next pz_tag pz_aad
  else .ok (ZendResult.SUCCESS, st)

/-- Lines 235-238: `data->auth_enc` is set for an authenticated mode. -/
def mark_auth_enc (mode : php_crypto_cipher_mode) (st : ConfigState) : ConfigState :=
  if mode.auth_enc then { st with data := { st.data with auth_enc := true } } else st

/-- Lines 240-247, the `tag` entry. `none`: `CIPHER_TAG_FORBIDDEN` is to be
reported and the call fails; `some st1`: the call goes on in state `st1`. -/
def tag_entry (mode : php_crypto_cipher_mode) (enc : Int) (pz_tag : Option Zval)
    (st : ConfigState) : Option ConfigState :=
  match pz_tag with
  | none => some st
  | some _ =>
    if !mode.auth_enc then some (st.report (php_crypto_error .CIPHER_TAG_USELESS))
    else if enc ≠ 0 then none
    else some st

/-- Lines 248-252, the `aad` entry. -/
def aad_entry (mode : php_crypto_cipher_mode) (pz_aad : Option Zval) (st : ConfigState) :
    ConfigState :=
  match pz_aad with
  | none => st
  | some _ =>
    if !mode.auth_enc then st.report (php_crypto_error .CIPHER_AAD_USELESS) else st

/-- Lines 235-281: runs once action, algorithm, key and iv are accepted. -/
def set_cipher_node (E : Engine) (st : ConfigState) (ht : HashTable) (enc : Int)
    (cipher : EVP_CIPHER) (key iv : Bytes) : Except Fault (ZendResult × ConfigState) :=
  let mode := E.php_crypto_get_cipher_mode cipher
  let st1 := mark_auth_enc mode st
  let pz_tag := zend_hash_find ht (cstr "tag")
  match tag_entry mode enc pz_tag st1 with
  | none => .ok (ZendResult.FAILURE, st1.report (php_crypto_error .CIPHER_TAG_FORBIDDEN))
  | some st2 =>
    let pz_aad := zend_hash_find ht (cstr "aad")
    let st3 := aad_entry mode pz_aad st2
    -- BIO_new, BIO_set_cipher, BIO_push, data->bio = cipher_bio: lines 254-257
    let ctx : EVP_CIPHER_CTX := { cipher := cipher, key := key, iv := iv, enc := enc, calls := [] }
    let next := st3.data.bio
    set_cipher_tag_aad E (st3.with_ctx ctx next) ctx next mode pz_tag pz_aad

/-- The function `php_crypto_stream_set_cipher`, on the stream data and log in
`st` and the filter item `pz_cipher`. -/
def php_crypto_stream_set_cipher (E : Engine) (st : ConfigState) (pz_cipher : Zval) :
    Except Fault (ZendResult × ConfigState) :=
  let fail (code : StreamError) : Except Fault (ZendResult × ConfigState) :=
    .ok (ZendResult.FAILURE, st.report (php_crypto_error code))
  match pz_cipher with
  | .array ht =>
    match zend_hash_find ht (cstr "action") with
    | none => fail .CIPHER_ACTION_NOT_SUPPLIED
    | some pz_action =>
      match cipher_action_enc pz_action with
      | none => fail .CIPHER_ACTION_INVALID
      | some enc =>
        match zend_hash_find ht (cstr "algorithm") with
        | none => fail .CIPHER_ALGORITHM_NOT_SUPPLIED
        | some (.string alg) =>
          match E.php_crypto_get_cipher_algorithm_from_params alg
              (zend_hash_find ht (cstr "mode")) (zend_hash_find ht (cstr "key_size")) with
          | none => .ok (ZendResult.FAILURE, st)
          | some cipher =>
            match zend_hash_find ht (cstr "key") with
            | none => fail .CIPHER_KEY_NOT_SUPPLIED
            | some (.string key) =>
              if (key.length : Int) ≠ E.EVP_CIPHER_key_length cipher then
                .ok (ZendResult.FAILURE, st.report
                  (php_crypto_error_ex .CIPHER_KEY_LENGTH_INVALID (E.EVP_CIPHER_key_length cipher)))
              else
                match zend_hash_find ht (cstr "iv") with
                | none => fail .CIPHER_IV_NOT_SUPPLIED
                | some (.string iv) =>
                  if (iv.length : Int) ≠ E.EVP_CIPHER_iv_length cipher then
                    .ok (ZendResult.FAILURE, st.report
                      (php_crypto_error_ex .CIPHER_IV_LENGTH_INVALID
                        (E.EVP_CIPHER_iv_length cipher)))
                  else set_cipher_node E st ht enc cipher key iv
                | some _ => fail .CIPHER_IV_TYPE_INVALID
            | some _ => fail .CIPHER_KEY_TYPE_INVALID
        | some _ => fail .CIPHER_ALGORITHM_TYPE_INVALID
  | _ => fail .CIPHER_CONTEXT_TYPE_INVALID

/-! ## Stream operations -/

/-- Calls made on the transform chain by one stream operation, in order. The
lookup of the first authenticated node is recorded with what it returned. -/
inductive ChainCall where
  | BIO_write (len : Nat)
  | BIO_read (len : Nat)
  | BIO_should_retry
  | BIO_flush
  | BIO_seek (ofs : Int)
  | BIO_tell
  | BIO_free_all
  | get_first_auth_bio (auth_bio : Option BIO)
  deriving DecidableEq, Repr

/-- What OpenSSL answers to the chain operations used by the stream: the
return value and the chain afterwards (`BIO_read` also gives the bytes stored
in the buffer). -/
structure BIOops where
  BIO_write : BIO → Bytes → Nat → Int × BIO
  BIO_read : BIO → Nat → Int × Bytes × BIO
  BIO_should_retry : BIO → Bool
  BIO_flush : BIO → Int × BIO
  BIO_seek : BIO → Int → Int × BIO
  BIO_tell : BIO → Int

/-- The fields of `php_stream` used here: `abstract` and `eof`. -/
structure php_stream where
  abstract : php_crypto_stream_data
  eof : Bool
  deriving DecidableEq, Repr

/-- The function `php_crypto_stream_get_first_auth_bio`. `BIO_find_type(bio,
BIO_TYPE_CIPHER)` is the node itself on a cipher BIO and `NULL` on the file
BIO, which ends the chain. -/
def php_crypto_stream_get_first_auth_bio (E : Engine) : BIO → Option BIO
  | .file _ => none
  | .cipher ctx next_bio =>
    if (E.php_crypto_get_cipher_mode ctx.cipher).auth_enc then some (.cipher ctx next_bio)
    else php_crypto_stream_get_first_auth_bio E next_bio

/-- Outcome of a write or a flush: return value, stream afterwards, calls made
on the chain. -/
structure OpResult (α : Type) where
  ret : α
  stream : php_stream
  calls : List ChainCall
  deriving DecidableEq, Repr

/-- Outcome of a read: return value, bytes stored in `buf`, stream afterwards,
calls made on the chain. -/
structure ReadResult where
  ret : Nat
  buf : Bytes
  stream : php_stream
  calls : List ChainCall
  deriving DecidableEq, Repr

/-- The function `php_crypto_stream_write`. -/
def php_crypto_stream_write (O : BIOops) (stream : php_stream) (buf : Bytes) (count : Nat) :
    OpResult Nat :=
  let data := stream.abstract
  let len := if count > INT_MAX then INT_MAX else count
  let r := O.BIO_write data.bio buf len
  let bytes_written := r.1
  { ret := if bytes_written ≤ 0 then 0 else bytes_written.toNat,
    stream := { stream with abstract := { data with bio := r.2 } },
    calls := [ChainCall.BIO_write len] }

/-- The function `php_crypto_stream_read`. -/
def php_crypto_stream_read (E : Engine) (O : BIOops) (stream : php_stream) (count : Nat) :
    ReadResult :=
  let data := stream.abstract
  let len := if count > INT_MAX then INT_MAX else count
  let r := O.BIO_read data.bio len
  let bytes_read := r.1
  let stream1 := { stream with abstract := { data with bio := r.2.2 } }
  if bytes_read > 0 then
    { ret := bytes_read.toNat, buf := r.2.1, stream := stream1, calls := [ChainCall.BIO_read len] }
  else
    let eof := !O.BIO_should_retry r.2.2
    let stream2 := { stream1 with eof := eof }
    if data.auth_enc && eof then
      let auth_bio := php_crypto_stream_get_first_auth_bio E r.2.2
      -- reading finished - save tag (encrypt) or auth result (decrypt)
      { ret := 0, buf := r.2.1, stream := stream2,
        calls := [ChainCall.BIO_read len, ChainCall.BIO_should_retry,
          ChainCall.get_first_auth_bio auth_bio] }
    else
      { ret := 0, buf := r.2.1, stream := stream2,
        calls := [ChainCall.BIO_read len, ChainCall.BIO_should_retry] }

/-- The function `php_crypto_stream_close`. -/
def php_crypto_stream_close (stream : php_stream) : OpResult Int :=
  { ret := 0, stream := stream, calls := [ChainCall.BIO_free_all] }

/-- The function `php_crypto_stream_flush`. -/
def php_crypto_stream_flush (E : Engine) (O : BIOops) (stream : php_stream) : OpResult Int :=
  let data := stream.abstract
  if !stream.eof then
    let r := O.BIO_flush data.bio
    let stream1 := { stream with abstract := { data with bio := r.2 } }
    if data.auth_enc then
      let auth_bio := php_crypto_stream_get_first_auth_bio E r.2
      -- writing finished - save tag (encrypt) or auth result (decrypt)
      { ret := 0, stream := stream1,
        calls := [ChainCall.BIO_flush, ChainCall.get_first_auth_bio auth_bio] }
    else { ret := 0, stream := stream1, calls := [ChainCall.BIO_flush] }
  else { ret := 0, stream := stream, calls := [] }

/-- The constant `SEEK_SET` of `stdio.h`. -/
def SEEK_SET : Int := 0

/-- Outcome of `php_crypto_stream_seek`. `newoffset` is the content of
`*newoffset` after the call. -/
structure SeekResult where
  ret : Int
  stream : php_stream
  newoffset : Int
  errors : List ErrorReport
  calls : List ChainCall
  deriving DecidableEq, Repr

/-- The function `php_crypto_stream_seek`; `newoffset` is the content of
`*newoffset` before the call. -/
def php_crypto_stream_seek (O : BIOops) (stream : php_stream) (offset : Int) (whence : Int)
    (newoffset : Int) : SeekResult :=
  if whence ≠ SEEK_SET then
    { ret := -1, stream := stream, newoffset := newoffset,
      errors := [php_crypto_error .SEEK_OPERATION_FORBIDDEN], calls := [] }
  else if offset > (INT_MAX : Int) then
    { ret := -1, stream := stream, newoffset := newoffset,
      errors := [php_crypto_error_ex .SEEK_OFFSET_HIGH (INT_MAX : Int)], calls := [] }
  else
    let data := stream.abstract
    let r := O.BIO_seek data.bio offset
    { ret := r.1, stream := { stream with abstract := { data with bio := r.2 } },
      newoffset := O.BIO_tell r.2, errors := [],
      calls := [ChainCall.BIO_seek offset, ChainCall.BIO_tell] }

/-! ## Opening a stream -/

/-- One pass of the body of the filter loop (lines 329-349) on `pz_filter_item`.
`true`: the loop goes on to the next item; `false`: `goto opener_error`. -/
def opener_filter_item (E : Engine) (st : ConfigState) (pz_filter_item : Zval) :
    Except Fault (Bool × ConfigState) :=
  match pz_filter_item with
  | .array ht =>
    match zend_hash_find ht (cstr "type") with
    | none => .ok (false, st.report (php_crypto_error .FILTER_TYPE_NOT_SUPPLIED))
    | some (.string type) =>
      -- call filter handler for supplied type
      if strncmp type (cstr "cipher") ((cstr "cipher").length + 1 - 1) = 0 then
        match php_crypto_stream_set_cipher E st pz_filter_item with
        | .error f => .error f
        | .ok (ZendResult.FAILURE, st1) => .ok (false, st1)
        | .ok (ZendResult.SUCCESS, st1) => .ok (true, st1)
      else .ok (false, st.report (php_crypto_error .FILTER_TYPE_UNKNOWN))
    | some _ => .ok (false, st.report (php_crypto_error .FILTER_TYPE_INVALID))
  | _ => .ok (false, st.report (php_crypto_error .FILTERS_ITEM_CONTEXT_TYPE_INVALID))

/-- The filter loop of `php_crypto_stream_opener` (lines 325-350) over the
entries of the `filters` array. -/
def opener_filter_loop (E : Engine) : ConfigState → HashTable → Except Fault (Bool × ConfigState)
  | st, [] => .ok (true, st)
  | st, (_, pz_filter_item) :: rest =>
    match opener_filter_item E st pz_filter_item with
    | .error f => .error f
    | .ok (false, st1) => .ok (false, st1)
    | .ok (true, st1) => opener_filter_loop E st1 rest

/-- ASCII `tolower` on one byte. -/
def tolower (c : Nat) : Nat := if 65 ≤ c ∧ c ≤ 90 then c + 32 else c

/-- C `strncasecmp`: `strncmp` on the lower-cased bytes. -/
def strncasecmp (s1 s2 : Bytes) (n : Nat) : Int :=
  strncmp (s1.map tolower) (s2.map tolower) n

/-- What the opener takes from its surroundings: constants of
`php_crypto_stream.h`, the PHP file API, `BIO_new_file`, the content of the
`auth_enc` field of the block returned by `emalloc` (the opener does not write
it), and whether `php_stream_alloc_rel` returns a stream. -/
structure OpenerEnv where
  PHP_CRYPTO_STREAM_FILE_SCHEME : Bytes
  PHP_CRYPTO_STREAM_FILE_SCHEME_SIZE : Nat
  PHP_CRYPTO_STREAM_ERROR_ACTION : Nat
  php_check_open_basedir : Bytes → Bool
  expand_filepath : Bytes → Option Bytes
  BIO_new_file : Bytes → Bytes → Option FileBIO
  emalloc_auth_enc : Bool
  php_stream_alloc_rel : Bool

/-- Outcome of `php_crypto_stream_opener`: the stream (`none` for `NULL`), the
value of `PHP_CRYPTO_G(error_action)` and the reports made. -/
structure OpenerResult where
  stream : Option php_stream
  opened_path : Option Bytes
  error_action : Nat
  errors : List ErrorReport
  deriving DecidableEq, Repr

/-- The function `php_crypto_stream_opener`. `disable_open_basedir` and
`assume_realpath` are the two bits tested in `options`; `filters` is the
`filters` option of the stream context, `none` when it is not set;
`error_action` is the value of the global on entry. -/
def php_crypto_stream_opener (E : Engine) (V : OpenerEnv) (path mode : Bytes)
    (disable_open_basedir assume_realpath : Bool) (filters : Option Zval)
    (error_action : Nat) : Except Fault OpenerResult :=
  let initial_error_action := error_action
  let path1 :=
    if strncasecmp V.PHP_CRYPTO_STREAM_FILE_SCHEME path V.PHP_CRYPTO_STREAM_FILE_SCHEME_SIZE = 0
    then path.drop V.PHP_CRYPTO_STREAM_FILE_SCHEME_SIZE
    else path
  if !disable_open_basedir && V.php_check_open_basedir path1 then
    .ok { stream := none, opened_path := none, error_action := error_action, errors := [] }
  else
    match (if assume_realpath then some path1 else V.expand_filepath path1) with
    | none => .ok { stream := none, opened_path := none, error_action := error_action, errors := [] }
    | some realpath =>
      match V.BIO_new_file realpath mode with
      | none =>
        .ok { stream := none, opened_path := none, error_action := initial_error_action,
              errors := [] }
      | some f =>
        let self : ConfigState :=
          { data := { bio := BIO.file f, auth_enc := V.emalloc_auth_enc }, errors := [] }
        let opener_error (st : ConfigState) : OpenerResult :=
          { stream := none, opened_path := none, error_action := initial_error_action,
            errors := st.errors }
        let configured : Except Fault (Bool × ConfigState) :=
          match filters with
          | none => .ok (true, self)
          | some (.array ht) => opener_filter_loop E self ht
          | some _ =>
            .ok (false, self.report (php_crypto_error .FILTERS_CONTEXT_TYPE_INVALID))
        match configured with
        | .error e => .error e
        | .ok (false, st) => .ok (opener_error st)
        | .ok (true, st) =>
          if V.php_stream_alloc_rel then
            .ok { stream := some { abstract := st.data, eof := false },
                  opened_path := some realpath,
                  error_action := V.PHP_CRYPTO_STREAM_ERROR_ACTION, errors := st.errors }
          else
            .ok { stream := none, opened_path := none,
                  error_action := V.PHP_CRYPTO_STREAM_ERROR_ACTION, errors := st.errors }

/-! ## Sample engine and filter items -/

/-- Cipher handle used for `aes-256-cbc`. -/
def aes_256_cbc : EVP_CIPHER := ⟨427⟩

/-- Cipher handle used for `aes-256-gcm`. -/
def aes_256_gcm : EVP_CIPHER := ⟨901⟩

/-- Sample engine with two algorithms: `aes-256-cbc` (key 32, iv 16, not
authenticated) and `aes-256-gcm` (key 32, iv 12, authenticated). The two context
helpers answer `ok`; a zval that is not a string reads as the empty string. -/
def sampleEngine (ok : Bool) : Engine where
  php_crypto_get_cipher_algorithm_from_params := fun alg _ _ =>
    if alg = cstr "aes-256-cbc" then some aes_256_cbc
    else if alg = cstr "aes-256-gcm" then some aes_256_gcm
    else none
  EVP_CIPHER_key_length := fun _ => 32
  EVP_CIPHER_iv_length := fun c => if c = aes_256_gcm then 12 else 16
  php_crypto_get_cipher_mode := fun c => ⟨decide (c = aes_256_gcm)⟩
  php_crypto_cipher_set_tag := fun _ _ _ _ => ok
  php_crypto_cipher_write_aad := fun _ _ _ => ok
  zval_str := fun _ => ([], 0)

/-- Entry of a filter item with a string key and a string value. -/
def entry (k : String) (v : Bytes) : ZKey × Zval := (ZKey.str (cstr k), Zval.string v)

/-- Chain of a freshly opened file, nothing reported yet. -/
def st0 : ConfigState :=
  { data := { bio := BIO.file ⟨cstr "/tmp/f", cstr "rb", 0⟩, auth_enc := false }, errors := [] }

/-- Byte string of `n` bytes `7`. -/
def bytes (n : Nat) : Bytes := List.replicate n 7

/-- Chain operations of a drained chain: reads and writes move nothing and ask
for no retry, a seek to a negative offset fails and leaves the position. -/
def drainedOps : BIOops where
  BIO_write := fun b _ _ => (0, b)
  BIO_read := fun b _ => (0, [], b)
  BIO_should_retry := fun _ => false
  BIO_flush := fun b => (1, b)
  BIO_seek := fun b ofs =>
    match b with
    | .file f => if ofs < 0 then (-1, b) else (0, .file { f with pos := ofs })
    | _ => (-1, b)
  BIO_tell := fun b =>
    match b with
    | .file f => f.pos
    | _ => -1

/-- Chain operations that always deliver `n` bytes `0` on a read. -/
def readyOps (n : Nat) : BIOops :=
  { drainedOps with BIO_read := fun b _ => ((n : Int), List.replicate n 0, b) }

/-- Chain operations of a chain that delivers nothing yet and asks to retry. -/
def retryOps : BIOops :=
  { drainedOps with BIO_should_retry := fun _ => true }

/-- Sample surroundings of the opener: every path is allowed and opens, and the
`auth_enc` field of the block returned by `emalloc` holds `junk`. -/
def sampleEnv (junk : Bool) : OpenerEnv where
  PHP_CRYPTO_STREAM_FILE_SCHEME := cstr "file://"
  PHP_CRYPTO_STREAM_FILE_SCHEME_SIZE := 7
  PHP_CRYPTO_STREAM_ERROR_ACTION := 1
  php_check_open_basedir := fun _ => false
  expand_filepath := fun p => some p
  BIO_new_file := fun p m => some ⟨p, m, 0⟩
  emalloc_auth_enc := junk
  php_stream_alloc_rel := true

/-- Filter item with the given action, algorithm, key and iv, followed by
further entries. -/
def cipherItem (action alg : String) (key iv : Bytes) (more : HashTable) : HashTable :=
  [entry "type" (cstr "cipher"), entry "action" (cstr action), entry "algorithm" (cstr alg),
    entry "key" key, entry "iv" iv] ++ more

/-- Stream over a plain file chain at position `0`. -/
def fileStream : php_stream :=
  { abstract := st0.data, eof := false }

/-- Stream that encrypts with `aes-256-gcm`; `auth_enc` is set. -/
def gcmStream : php_stream :=
  { abstract :=
      { bio := BIO.cipher
          { cipher := aes_256_gcm, key := bytes 32, iv := bytes 12, enc := 1, calls := [] }
          st0.data.bio,
        auth_enc := true },
    eof := false }

/-! ## What the bounded string comparisons accept -/

/-- A `strncmp` against a literal without NUL bytes, bounded by the length of
the literal, is `0` exactly when the string begins with the literal. -/
theorem strncmp_eq_zero_iff_take (lit : Bytes) (h0 : ∀ c ∈ lit, c ≠ 0) (a : Bytes) :
    strncmp a lit lit.length = 0 ↔ a.take lit.length = lit := by
  induction lit generalizing a with
  | nil => simp [strncmp]
  | cons c cs ih =>
    have hc : c ≠ 0 := h0 c (List.mem_cons_self _ _)
    have hcs : ∀ x ∈ cs, x ≠ 0 := fun x hx => h0 x (List.mem_cons_of_mem _ hx)
    cases a with
    | nil =>
      have : ¬ (0 : Nat) = c := fun h => hc h.symm
      simp [strncmp, this, hc]
    | cons x xs =>
      by_cases hx : x = c
      · subst hx
        simp [strncmp, hc, ih hcs xs]
      · have hne : (x : Int) - (c : Int) ≠ 0 := by omega
        simp [strncmp, hx, hne]

/-- The action check passes exactly for the strings whose first seven bytes
are `encrypt` (direction `1`) or `decrypt` (direction `0`). -/
theorem cipher_action_enc_eq_some_iff (pz_action : Zval) (enc : Int) :
    cipher_action_enc pz_action = some enc ↔
      ∃ a, pz_action = .string a ∧
        ((a.take 7 = cstr "encrypt" ∧ enc = 1) ∨
         (a.take 7 = cstr "decrypt" ∧ enc = 0)) := by
  have hde : ¬ cstr "decrypt" = cstr "encrypt" := by decide
  have he := strncmp_eq_zero_iff_take (cstr "encrypt") (by decide)
  have hd := strncmp_eq_zero_iff_take (cstr "decrypt") (by decide)
  have le : (cstr "encrypt").length = 7 := by decide
  have ld : (cstr "decrypt").length = 7 := by decide
  rw [le] at he
  rw [ld] at hd
  cases pz_action with
  | string a =>
    simp only [cipher_action_enc, le, ld, Nat.add_sub_cancel, Zval.string.injEq, exists_eq_left']
    by_cases h1 : strncmp a (cstr "encrypt") 7 = 0
    · have := (he a).mp h1
      simp [h1, this, Ne.symm hde, eq_comm]
    · have h1' : ¬ a.take 7 = cstr "encrypt" := fun h => h1 ((he a).mpr h)
      by_cases h2 : strncmp a (cstr "decrypt") 7 = 0
      · have := (hd a).mp h2
        simp [h1, h2, this, hde, eq_comm]
      · have h2' : ¬ a.take 7 = cstr "decrypt" := fun h => h2 ((hd a).mpr h)
        simp [h1, h1', h2, h2']
  | _ => simp [cipher_action_enc]

/-- How the filter loop treats the `type` entry of an item that is an array:
missing gives `FILTER_TYPE_NOT_SUPPLIED`, a non-string gives
`FILTER_TYPE_INVALID`, a string that does not begin with `cipher` gives
`FILTER_TYPE_UNKNOWN`, and a string that begins with `cipher` gives the item to
`php_crypto_stream_set_cipher`, whose result decides. -/
theorem opener_filter_item_type_dispatch (E : Engine) (st : ConfigState) (ht : HashTable) :
    (zend_hash_find ht (cstr "type") = none →
      opener_filter_item E st (.array ht) =
        .ok (false, st.report (php_crypto_error .FILTER_TYPE_NOT_SUPPLIED))) ∧
    (∀ v, zend_hash_find ht (cstr "type") = some v → (∀ t, v ≠ .string t) →
      opener_filter_item E st (.array ht) =
        .ok (false, st.report (php_crypto_error .FILTER_TYPE_INVALID))) ∧
    (∀ t, zend_hash_find ht (cstr "type") = some (.string t) → t.take 6 ≠ cstr "cipher" →
      opener_filter_item E st (.array ht) =
        .ok (false, st.report (php_crypto_error .FILTER_TYPE_UNKNOWN))) ∧
    (∀ t, zend_hash_find ht (cstr "type") = some (.string t) → t.take 6 = cstr "cipher" →
      opener_filter_item E st (.array ht) =
        match php_crypto_stream_set_cipher E st (.array ht) with
        | .error f => .error f
        | .ok (ZendResult.FAILURE, st1) => .ok (false, st1)
        | .ok (ZendResult.SUCCESS, st1) => .ok (true, st1)) := by
  have hc := strncmp_eq_zero_iff_take (cstr "cipher") (by decide)
  have lc : (cstr "cipher").length = 6 := by decide
  rw [lc] at hc
  refine ⟨?_, ?_, ?_, ?_⟩
  · intro h
    simp [opener_filter_item, h]
  · intro v h hv
    cases v with
    | string t => exact absurd rfl (hv t)
    | _ => simp [opener_filter_item, h]
  · intro t h ht6
    have : ¬ strncmp t (cstr "cipher") 6 = 0 := fun h0 => ht6 ((hc t).mp h0)
    simp [opener_filter_item, h, lc, this]
  · intro t h ht6
    have : strncmp t (cstr "cipher") 6 = 0 := (hc t).mpr ht6
    simp [opener_filter_item, h, lc, this]

/-! ## The context helpers leave the error log alone -/

/-- Writing the associated data reports nothing through the stream errors. -/
theorem set_cipher_write_aad_errors (E : Engine) (st : ConfigState) (ctx : EVP_CIPHER_CTX)
    (next : BIO) (pz_tag pz_aad : Option Zval) (r : ZendResult) (st1 : ConfigState)
    (h : set_cipher_write_aad E st ctx next pz_tag pz_aad = .ok (r, st1)) :
    st1.errors = st.errors := by
  unfold set_cipher_write_aad at h
  cases hargs : write_aad_args E pz_tag pz_aad with
  | error f => simp [hargs] at h
  | ok p =>
    simp only [hargs] at h
    split at h <;>
      · simp only [Except.ok.injEq, Prod.mk.injEq] at h
        rw [← h.2]; rfl

/-- Handing tag and associated data to the context reports nothing through the
stream errors. -/
theorem set_cipher_tag_aad_errors (E : Engine) (st : ConfigState) (ctx : EVP_CIPHER_CTX)
    (next : BIO) (mode : php_crypto_cipher_mode) (pz_tag pz_aad : Option Zval)
    (r : ZendResult) (st1 : ConfigState)
    (h : set_cipher_tag_aad E st ctx next mode pz_tag pz_aad = .ok (r, st1)) :
    st1.errors = st.errors := by
  unfold set_cipher_tag_aad at h
  split at h
  · split at h
    · split at h
      · exact set_cipher_write_aad_errors E st _ next _ _ r st1 h
      · simp only [Except.ok.injEq, Prod.mk.injEq] at h
        rw [← h.2]; rfl
    · exact set_cipher_write_aad_errors E st _ next _ _ r st1 h
  · simp only [Except.ok.injEq, Prod.mk.injEq] at h
    rw [← h.2]

/-! ## Key and iv lengths -/

/-- C1. For a cipher filter item whose action passes the action check, whose
algorithm is a string that the engine resolves and whose key and iv are strings:
a key of another length than the engine's key length fails with
`CIPHER_KEY_LENGTH_INVALID` carrying that length; otherwise an iv of another
length than the engine's iv length fails with `CIPHER_IV_LENGTH_INVALID` carrying
that length; and when both match and neither `tag` nor `aad` is present the call
returns `SUCCESS`, reports nothing, and the chain is the old chain with exactly
one new cipher node (algorithm, key, iv, direction) pushed on top. -/
theorem set_cipher_key_iv_lengths (E : Engine) (st : ConfigState) (ht : HashTable)
    (pz_action : Zval) (enc : Int) (alg : Bytes) (cipher : EVP_CIPHER) (key iv : Bytes)
    (haction : zend_hash_find ht (cstr "action") = some pz_action)
    (henc : cipher_action_enc pz_action = some enc)
    (halg : zend_hash_find ht (cstr "algorithm") = some (.string alg))
    (hres : E.php_crypto_get_cipher_algorithm_from_params alg
      (zend_hash_find ht (cstr "mode")) (zend_hash_find ht (cstr "key_size")) = some cipher)
    (hkey : zend_hash_find ht (cstr "key") = some (.string key))
    (hiv : zend_hash_find ht (cstr "iv") = some (.string iv)) :
    ((key.length : Int) ≠ E.EVP_CIPHER_key_length cipher →
      php_crypto_stream_set_cipher E st (.array ht) =
        .ok (ZendResult.FAILURE, st.report
          (php_crypto_error_ex .CIPHER_KEY_LENGTH_INVALID (E.EVP_CIPHER_key_length cipher)))) ∧
    ((key.length : Int) = E.EVP_CIPHER_key_length cipher →
      (iv.length : Int) ≠ E.EVP_CIPHER_iv_length cipher →
      php_crypto_stream_set_cipher E st (.array ht) =
        .ok (ZendResult.FAILURE, st.report
          (php_crypto_error_ex .CIPHER_IV_LENGTH_INVALID (E.EVP_CIPHER_iv_length cipher)))) ∧
    ((key.length : Int) = E.EVP_CIPHER_key_length cipher →
      (iv.length : Int) = E.EVP_CIPHER_iv_length cipher →
      zend_hash_find ht (cstr "tag") = none →
      zend_hash_find ht (cstr "aad") = none →
      php_crypto_stream_set_cipher E st (.array ht) =
        .ok (ZendResult.SUCCESS,
          { data :=
              { bio := BIO.cipher
                  { cipher := cipher, key := key, iv := iv, enc := enc, calls := [] } st.data.bio,
                auth_enc := st.data.auth_enc || (E.php_crypto_get_cipher_mode cipher).auth_enc },
            errors := st.errors })) := by
  refine ⟨?_, ?_, ?_⟩
  · intro hk
    simp [php_crypto_stream_set_cipher, haction, henc, halg, hres, hkey, hk]
  · intro hk hv
    simp [php_crypto_stream_set_cipher, haction, henc, halg, hres, hkey, hiv, hk, hv]
  · intro hk hv htag haad
    cases hm : (E.php_crypto_get_cipher_mode cipher).auth_enc <;>
      simp [php_crypto_stream_set_cipher, haction, henc, halg, hres, hkey, hiv, hk, hv,
        set_cipher_node, set_cipher_tag_aad, htag, haad, hm, tag_entry, aad_entry,
        mark_auth_enc, ConfigState.with_ctx]

/-- C1 at `aes-256-cbc` with a key of 32 and an iv of 16 bytes: one node is
pushed and the call succeeds. -/
theorem set_cipher_key_iv_lengths_witness :
    php_crypto_stream_set_cipher (sampleEngine true) st0
        (.array (cipherItem "encrypt" "aes-256-cbc" (bytes 32) (bytes 16) [])) =
      .ok (ZendResult.SUCCESS,
        { data :=
            { bio := BIO.cipher
                { cipher := aes_256_cbc, key := bytes 32, iv := bytes 16, enc := 1, calls := [] }
                st0.data.bio,
              auth_enc := st0.data.auth_enc ||
                ((sampleEngine true).php_crypto_get_cipher_mode aes_256_cbc).auth_enc },
          errors := st0.errors }) :=
  (set_cipher_key_iv_lengths (sampleEngine true) st0
    (cipherItem "encrypt" "aes-256-cbc" (bytes 32) (bytes 16) [])
    (.string (cstr "encrypt")) 1 (cstr "aes-256-cbc") aes_256_cbc (bytes 32) (bytes 16)
    rfl (by decide) rfl (by decide) rfl rfl).2.2
    (by decide) (by decide) rfl rfl

/-! ## The `tag` entry on encryption -/

/-- C2, as stated, fails: `aes-256-cbc` is not authenticated, and with action
`encrypt` and a `tag` entry the only report is the notice `CIPHER_TAG_USELESS`.
The node is pushed and the result is that of the context helpers (`SUCCESS`
when they succeed, `FAILURE` when `php_crypto_cipher_set_tag` fails); in neither
case is `CIPHER_TAG_FORBIDDEN` reported. -/
theorem set_cipher_tag_encrypt_not_authenticated :
    php_crypto_stream_set_cipher (sampleEngine true) st0
        (.array (cipherItem "encrypt" "aes-256-cbc" (bytes 32) (bytes 16)
          [entry "tag" (bytes 16)])) =
      .ok (ZendResult.SUCCESS,
        { data :=
            { bio := BIO.cipher
                { cipher := aes_256_cbc, key := bytes 32, iv := bytes 16, enc := 1,
                  calls := [CtxCall.set_tag (bytes 16) 16, CtxCall.write_aad none 0] }
                st0.data.bio,
              auth_enc := false },
          errors := [php_crypto_error .CIPHER_TAG_USELESS] }) ∧
    php_crypto_stream_set_cipher (sampleEngine false) st0
        (.array (cipherItem "encrypt" "aes-256-cbc" (bytes 32) (bytes 16)
          [entry "tag" (bytes 16)])) =
      .ok (ZendResult.FAILURE,
        { data :=
            { bio := BIO.cipher
                { cipher := aes_256_cbc, key := bytes 32, iv := bytes 16, enc := 1,
                  calls := [CtxCall.set_tag (bytes 16) 16] }
                st0.data.bio,
              auth_enc := false },
          errors := [php_crypto_error .CIPHER_TAG_USELESS] }) := by
  constructor <;> decide

/-- C2, amended. For a cipher filter item that passes the action, algorithm,
key and iv checks, whose action gives the direction Encrypt, that has a `tag`
entry of any type and whose resolved algorithm is authenticated, the call fails
with `CIPHER_TAG_FORBIDDEN`: that is the only report, the `auth_enc` flag of the
stream data is already set and no node is pushed. -/
theorem set_cipher_tag_forbidden_authenticated (E : Engine) (st : ConfigState) (ht : HashTable)
    (pz_action pz_tag : Zval) (alg : Bytes) (cipher : EVP_CIPHER) (key iv : Bytes)
    (haction : zend_hash_find ht (cstr "action") = some pz_action)
    (henc : cipher_action_enc pz_action = some 1)
    (halg : zend_hash_find ht (cstr "algorithm") = some (.string alg))
    (hres : E.php_crypto_get_cipher_algorithm_from_params alg
      (zend_hash_find ht (cstr "mode")) (zend_hash_find ht (cstr "key_size")) = some cipher)
    (hkey : zend_hash_find ht (cstr "key") = some (.string key))
    (hklen : (key.length : Int) = E.EVP_CIPHER_key_length cipher)
    (hiv : zend_hash_find ht (cstr "iv") = some (.string iv))
    (hvlen : (iv.length : Int) = E.EVP_CIPHER_iv_length cipher)
    (htag : zend_hash_find ht (cstr "tag") = some pz_tag)
    (hauth : (E.php_crypto_get_cipher_mode cipher).auth_enc = true) :
    php_crypto_stream_set_cipher E st (.array ht) =
      .ok (ZendResult.FAILURE,
        { data := { bio := st.data.bio, auth_enc := true },
          errors := st.errors ++ [php_crypto_error .CIPHER_TAG_FORBIDDEN] }) := by
  simp [php_crypto_stream_set_cipher, haction, henc, halg, hres, hkey, hiv, hklen, hvlen,
    set_cipher_node, htag, hauth, ConfigState.report, tag_entry, mark_auth_enc]

/-- C2 amended, at `aes-256-gcm` with action `encrypt` and a `tag` entry: the
call fails with `CIPHER_TAG_FORBIDDEN`. -/
theorem set_cipher_tag_forbidden_authenticated_witness :
    php_crypto_stream_set_cipher (sampleEngine true) st0
        (.array (cipherItem "encrypt" "aes-256-gcm" (bytes 32) (bytes 12)
          [entry "tag" (bytes 16)])) =
      .ok (ZendResult.FAILURE,
        { data := { bio := st0.data.bio, auth_enc := true },
          errors := st0.errors ++ [php_crypto_error .CIPHER_TAG_FORBIDDEN] }) :=
  set_cipher_tag_forbidden_authenticated (sampleEngine true) st0
    (cipherItem "encrypt" "aes-256-gcm" (bytes 32) (bytes 12) [entry "tag" (bytes 16)])
    (.string (cstr "encrypt")) (.string (bytes 16)) (cstr "aes-256-gcm") aes_256_gcm
    (bytes 32) (bytes 12)
    rfl (by decide) rfl (by decide) rfl (by decide) rfl (by decide) rfl (by decide)

/-! ## `tag` and `aad` with an algorithm that is not authenticated -/

/-- The sibling path, a `tag` entry of any type without an `aad` entry and an
algorithm that is not authenticated: the only report is the notice
`CIPHER_TAG_USELESS`, the node with the algorithm, key, iv and direction of the
item is pushed, the tag is passed to `php_crypto_cipher_set_tag` and then
`php_crypto_cipher_write_aad` is called with `NULL` and `0`; the call returns
`SUCCESS` exactly when both helpers succeed. -/
theorem set_cipher_useless_tag_only (E : Engine) (st : ConfigState) (ht : HashTable)
    (pz_action pz_tag : Zval) (enc : Int) (alg : Bytes) (cipher : EVP_CIPHER) (key iv : Bytes)
    (haction : zend_hash_find ht (cstr "action") = some pz_action)
    (henc : cipher_action_enc pz_action = some enc)
    (halg : zend_hash_find ht (cstr "algorithm") = some (.string alg))
    (hres : E.php_crypto_get_cipher_algorithm_from_params alg
      (zend_hash_find ht (cstr "mode")) (zend_hash_find ht (cstr "key_size")) = some cipher)
    (hkey : zend_hash_find ht (cstr "key") = some (.string key))
    (hklen : (key.length : Int) = E.EVP_CIPHER_key_length cipher)
    (hiv : zend_hash_find ht (cstr "iv") = some (.string iv))
    (hvlen : (iv.length : Int) = E.EVP_CIPHER_iv_length cipher)
    (hm : (E.php_crypto_get_cipher_mode cipher).auth_enc = false)
    (htag : zend_hash_find ht (cstr "tag") = some pz_tag)
    (haad : zend_hash_find ht (cstr "aad") = none) :
    php_crypto_stream_set_cipher E st (.array ht) =
      if E.php_crypto_cipher_set_tag
          { cipher := cipher, key := key, iv := iv, enc := enc, calls := [] }
          (E.php_crypto_get_cipher_mode cipher) (Z_STRVAL E pz_tag) (Z_STRLEN E pz_tag) then
        .ok (
          if E.php_crypto_cipher_write_aad
              { cipher := cipher, key := key, iv := iv, enc := enc,
                calls := [CtxCall.set_tag (Z_STRVAL E pz_tag) (Z_STRLEN E pz_tag)] } none 0
            then ZendResult.SUCCESS else ZendResult.FAILURE,
          { data :=
              { bio := BIO.cipher
                  { cipher := cipher, key := key, iv := iv, enc := enc,
                    calls := [CtxCall.set_tag (Z_STRVAL E pz_tag) (Z_STRLEN E pz_tag),
                      CtxCall.write_aad none 0] }
                  st.data.bio,
                auth_enc := st.data.auth_enc },
            errors := st.errors ++ [php_crypto_error .CIPHER_TAG_USELESS] })
      else
        .ok (ZendResult.FAILURE,
          { data :=
              { bio := BIO.cipher
                  { cipher := cipher, key := key, iv := iv, enc := enc,
                    calls := [CtxCall.set_tag (Z_STRVAL E pz_tag) (Z_STRLEN E pz_tag)] }
                  st.data.bio,
                auth_enc := st.data.auth_enc },
            errors := st.errors ++ [php_crypto_error .CIPHER_TAG_USELESS] }) := by
  simp only [php_crypto_stream_set_cipher, haction, henc, halg, hres, hkey, hiv, hklen, hvlen,
    set_cipher_node, htag, haad, hm, tag_entry, aad_entry, mark_auth_enc, set_cipher_tag_aad,
    set_cipher_write_aad, write_aad_args, ConfigState.with_ctx, ConfigState.report]
  by_cases h1 : E.php_crypto_cipher_set_tag
      { cipher := cipher, key := key, iv := iv, enc := enc, calls := [] }
      (E.php_crypto_get_cipher_mode cipher) (Z_STRVAL E pz_tag) (Z_STRLEN E pz_tag) = true
  · by_cases h2 : E.php_crypto_cipher_write_aad
        { cipher := cipher, key := key, iv := iv, enc := enc,
          calls := [CtxCall.set_tag (Z_STRVAL E pz_tag) (Z_STRLEN E pz_tag)] } none 0 = true <;>
      simp [h1, h2]
  · simp [h1]

/-- An `aad` entry without a `tag` entry, whatever the engine and whether or not
the algorithm is authenticated: once action, algorithm, key and iv are accepted
the call reaches line 271 with `ppz_tag == NULL` and reads the length through
it. -/
theorem set_cipher_aad_without_tag (E : Engine) (st : ConfigState) (ht : HashTable)
    (pz_action pz_aad : Zval) (enc : Int) (alg : Bytes) (cipher : EVP_CIPHER) (key iv : Bytes)
    (haction : zend_hash_find ht (cstr "action") = some pz_action)
    (henc : cipher_action_enc pz_action = some enc)
    (halg : zend_hash_find ht (cstr "algorithm") = some (.string alg))
    (hres : E.php_crypto_get_cipher_algorithm_from_params alg
      (zend_hash_find ht (cstr "mode")) (zend_hash_find ht (cstr "key_size")) = some cipher)
    (hkey : zend_hash_find ht (cstr "key") = some (.string key))
    (hklen : (key.length : Int) = E.EVP_CIPHER_key_length cipher)
    (hiv : zend_hash_find ht (cstr "iv") = some (.string iv))
    (hvlen : (iv.length : Int) = E.EVP_CIPHER_iv_length cipher)
    (htag : zend_hash_find ht (cstr "tag") = none)
    (haad : zend_hash_find ht (cstr "aad") = some pz_aad) :
    php_crypto_stream_set_cipher E st (.array ht) = .error Fault.null_deref := by
  simp [php_crypto_stream_set_cipher, haction, henc, halg, hres, hkey, hiv, hklen, hvlen,
    set_cipher_node, htag, haad, tag_entry, set_cipher_tag_aad, set_cipher_write_aad,
    write_aad_args]

/-- C3, evaluated where the code departs from it: `aes-256-cbc` is not
authenticated and the item is valid but for its useless `aad` entry `ctx`; it
has no `tag` entry. After the notice `CIPHER_AAD_USELESS` and the push of the
node, line 271 reads `Z_STRLEN_PP(ppz_tag)` with `ppz_tag == NULL`: the call
does not return `SUCCESS`, it leaves defined behaviour, for action `decrypt` and
for action `encrypt`, whether the engine helpers would succeed or not. -/
theorem set_cipher_useless_aad_without_tag :
    php_crypto_stream_set_cipher (sampleEngine true) st0
        (.array (cipherItem "decrypt" "aes-256-cbc" (bytes 32) (bytes 16)
          [entry "aad" (cstr "ctx")])) =
      .error Fault.null_deref ∧
    php_crypto_stream_set_cipher (sampleEngine true) st0
        (.array (cipherItem "encrypt" "aes-256-cbc" (bytes 32) (bytes 16)
          [entry "aad" (cstr "ctx")])) =
      .error Fault.null_deref ∧
    php_crypto_stream_set_cipher (sampleEngine false) st0
        (.array (cipherItem "decrypt" "aes-256-cbc" (bytes 32) (bytes 16)
          [entry "aad" (cstr "ctx")])) =
      .error Fault.null_deref := by
  refine ⟨by decide, by decide, by decide⟩

/-! ## The action check -/

/-- C4, evaluated where the code departs from it: the action `encrypted` (and
likewise `decryption`) is a string that is not equal to `encrypt` or `decrypt`,
yet it passes the check of lines 182-184, which compares the first seven bytes
only. The item is accepted with direction Encrypt (resp. Decrypt) and
`CIPHER_ACTION_INVALID` is not reported. -/
theorem set_cipher_action_prefix_accepted :
    cstr "encrypted" ≠ cstr "encrypt" ∧
    cipher_action_enc (.string (cstr "encrypted")) = some 1 ∧
    cipher_action_enc (.string (cstr "decryption")) = some 0 ∧
    php_crypto_stream_set_cipher (sampleEngine true) st0
        (.array (cipherItem "encrypted" "aes-256-cbc" (bytes 32) (bytes 16) [])) =
      .ok (ZendResult.SUCCESS,
        { data :=
            { bio := BIO.cipher
                { cipher := aes_256_cbc, key := bytes 32, iv := bytes 16, enc := 1, calls := [] }
                st0.data.bio,
              auth_enc := false },
          errors := [] }) := by
  refine ⟨by decide, by decide, by decide, by decide⟩

/-! ## The filter type -/

/-- C5, evaluated where the code departs from it: the type `cipherX` is not
equal to `cipher`, yet line 342 compares the first six bytes only and hands the
item to the cipher handler. An item with nothing but that type fails with the
handler's `CIPHER_ACTION_NOT_SUPPLIED`, not with `FILTER_TYPE_UNKNOWN`, and a
complete cipher item of that type opens a stream with the cipher node on the
chain. -/
theorem opener_type_prefix_handled_as_cipher :
    cstr "cipherX" ≠ cstr "cipher" ∧
    opener_filter_item (sampleEngine true) st0 (.array [entry "type" (cstr "cipherX")]) =
      .ok (false, st0.report (php_crypto_error .CIPHER_ACTION_NOT_SUPPLIED)) ∧
    php_crypto_stream_opener (sampleEngine true) (sampleEnv false) (cstr "/tmp/f") (cstr "rb")
        false false
        (some (.array [(ZKey.idx 0, .array
          [entry "type" (cstr "cipherX"), entry "action" (cstr "encrypt"),
            entry "algorithm" (cstr "aes-256-cbc"), entry "key" (bytes 32),
            entry "iv" (bytes 16)])])) 0 =
      .ok { stream := some
              { abstract :=
                  { bio := BIO.cipher
                      { cipher := aes_256_cbc, key := bytes 32, iv := bytes 16, enc := 1,
                        calls := [] }
                      st0.data.bio,
                    auth_enc := false },
                eof := false },
            opened_path := some (cstr "/tmp/f"),
            error_action := 1,
            errors := [] } := by
  refine ⟨by decide, by decide, by decide⟩

/-! ## The associated data -/

/-- C6, evaluated where the code departs from it: for `aes-256-gcm`, action
`decrypt`, a tag of 16 bytes and the aad `ctx` of 3 bytes, the call made on the
context of the new node is `php_crypto_cipher_write_aad(ctx, "ctx", 16)`: the
length passed with the aad pointer is that of the tag (line 271). -/
theorem set_cipher_aad_length_is_tag_length :
    (cstr "ctx").length = 3 ∧
    php_crypto_stream_set_cipher (sampleEngine true) st0
        (.array (cipherItem "decrypt" "aes-256-gcm" (bytes 32) (bytes 12)
          [entry "tag" (bytes 16), entry "aad" (cstr "ctx")])) =
      .ok (ZendResult.SUCCESS,
        { data :=
            { bio := BIO.cipher
                { cipher := aes_256_gcm, key := bytes 32, iv := bytes 12, enc := 0,
                  calls := [CtxCall.set_tag (bytes 16) 16,
                    CtxCall.write_aad (some (cstr "ctx")) 16] }
                st0.data.bio,
              auth_enc := true },
          errors := [] }) := by
  refine ⟨by decide, by decide⟩

/-! ## Seek -/

/-- C7. A seek with a `whence` other than `SEEK_SET` returns `-1` and reports
`SEEK_OPERATION_FORBIDDEN`, whatever the offset; a `SEEK_SET` seek to an offset
above `INT_MAX` returns `-1` and reports `SEEK_OFFSET_HIGH` carrying `INT_MAX`; in
both cases no call is made on the chain, the stream is unchanged and
`*newoffset` keeps its content. A `SEEK_SET` seek to an offset up to `INT_MAX`
calls `BIO_seek` with the offset and then `BIO_tell`, and `*newoffset` is
what `BIO_tell` reports for the chain after the seek. -/
theorem seek_contract (O : BIOops) (stream : php_stream) (offset whence newoffset : Int) :
    (whence ≠ SEEK_SET →
      php_crypto_stream_seek O stream offset whence newoffset =
        { ret := -1, stream := stream, newoffset := newoffset,
          errors := [php_crypto_error .SEEK_OPERATION_FORBIDDEN], calls := [] }) ∧
    (whence = SEEK_SET → offset > (INT_MAX : Int) →
      php_crypto_stream_seek O stream offset whence newoffset =
        { ret := -1, stream := stream, newoffset := newoffset,
          errors := [php_crypto_error_ex .SEEK_OFFSET_HIGH (INT_MAX : Int)], calls := [] }) ∧
    (whence = SEEK_SET → offset ≤ (INT_MAX : Int) →
      php_crypto_stream_seek O stream offset whence newoffset =
        { ret := (O.BIO_seek stream.abstract.bio offset).1,
          stream :=
            { abstract :=
                { bio := (O.BIO_seek stream.abstract.bio offset).2,
                  auth_enc := stream.abstract.auth_enc },
              eof := stream.eof },
          newoffset := O.BIO_tell (O.BIO_seek stream.abstract.bio offset).2,
          errors := [],
          calls := [ChainCall.BIO_seek offset, ChainCall.BIO_tell] }) := by
  refine ⟨?_, ?_, ?_⟩
  · intro hw
    simp [php_crypto_stream_seek, hw]
  · intro hw ho
    simp [php_crypto_stream_seek, hw, ho]
  · intro hw ho
    simp [php_crypto_stream_seek, hw, not_lt.mpr ho]

/-- C7 at a chain that refuses the seek to `-5` and stays at position `0`:
`*newoffset` becomes the position `0` reported by the chain, not the requested
offset and not its former content `99`. -/
theorem seek_contract_witness :
    php_crypto_stream_seek drainedOps fileStream (-5) SEEK_SET 99 =
      { ret := -1, stream := fileStream, newoffset := 0, errors := [],
        calls := [ChainCall.BIO_seek (-5), ChainCall.BIO_tell] } :=
  (seek_contract drainedOps fileStream (-5) SEEK_SET 99).2.2 rfl (by decide)

/-! ## End of stream on an authenticated chain -/

/-- C8, evaluated where the code departs from it: on a stream that encrypts with
`aes-256-gcm`, a read that gets nothing from a chain that is not to be retried
sets `eof`, and a flush before that flushes the chain; both look up the first
authenticated node and find it, and that is all: the calls made are the ones
listed, none of them asks the engine for the tag, and the stream data afterwards
is the chain and the `auth_enc` flag as before, with no tag kept. -/
theorem eof_on_authenticated_chain_keeps_no_tag :
    php_crypto_stream_read (sampleEngine true) drainedOps gcmStream 16 =
      { ret := 0, buf := [], stream := { abstract := gcmStream.abstract, eof := true },
        calls := [ChainCall.BIO_read 16, ChainCall.BIO_should_retry,
          ChainCall.get_first_auth_bio (some gcmStream.abstract.bio)] } ∧
    php_crypto_stream_flush (sampleEngine true) drainedOps gcmStream =
      { ret := 0, stream := gcmStream,
        calls := [ChainCall.BIO_flush,
          ChainCall.get_first_auth_bio (some gcmStream.abstract.bio)] } := by
  constructor <;> decide

/-! ## Flush -/

/-- C9. With `eof` set a flush makes no call on the chain, leaves the stream
unchanged and returns `0`. With `eof` clear it returns `0`, the chain becomes the
one left by `BIO_flush`, nothing else of the stream changes, the first call is
`BIO_flush` and it is the only `BIO_flush` among the calls. -/
theorem flush_contract (E : Engine) (O : BIOops) (stream : php_stream) :
    (stream.eof = true →
      php_crypto_stream_flush E O stream = { ret := 0, stream := stream, calls := [] }) ∧
    (stream.eof = false →
      (php_crypto_stream_flush E O stream).ret = 0 ∧
      (php_crypto_stream_flush E O stream).stream =
        { abstract :=
            { bio := (O.BIO_flush stream.abstract.bio).2,
              auth_enc := stream.abstract.auth_enc },
          eof := false } ∧
      (php_crypto_stream_flush E O stream).calls.head? = some ChainCall.BIO_flush ∧
      (php_crypto_stream_flush E O stream).calls.count ChainCall.BIO_flush = 1) := by
  constructor
  · intro h
    simp [php_crypto_stream_flush, h]
  · intro h
    cases ha : stream.abstract.auth_enc <;>
      simp [php_crypto_stream_flush, h, ha]

/-- C9 at a stream whose `eof` is set: nothing happens. -/
theorem flush_contract_witness :
    php_crypto_stream_flush (sampleEngine true) drainedOps { gcmStream with eof := true } =
      { ret := 0, stream := { gcmStream with eof := true }, calls := [] } :=
  (flush_contract (sampleEngine true) drainedOps { gcmStream with eof := true }).1 rfl

/-! ## Read -/

/-- C10. A read asks the chain once, for `min(count, INT_MAX)` bytes. When the
chain returns `n > 0` the read returns `n` and `eof` is unchanged. When the
chain returns `n ≤ 0` the read returns `0` and `eof` becomes the negation of
`BIO_should_retry` on the chain after the read. -/
theorem read_contract (E : Engine) (O : BIOops) (stream : php_stream) (count : Nat) :
    (∃ rest, (php_crypto_stream_read E O stream count).calls =
        ChainCall.BIO_read (min count INT_MAX) :: rest ∧
      ∀ n, ChainCall.BIO_read n ∉ rest) ∧
    ((O.BIO_read stream.abstract.bio (min count INT_MAX)).1 > 0 →
      ((php_crypto_stream_read E O stream count).ret : Int) =
        (O.BIO_read stream.abstract.bio (min count INT_MAX)).1 ∧
      (php_crypto_stream_read E O stream count).stream.eof = stream.eof) ∧
    ((O.BIO_read stream.abstract.bio (min count INT_MAX)).1 ≤ 0 →
      (php_crypto_stream_read E O stream count).ret = 0 ∧
      (php_crypto_stream_read E O stream count).stream.eof =
        !O.BIO_should_retry (O.BIO_read stream.abstract.bio (min count INT_MAX)).2.2) := by
  have hlen : (if count > INT_MAX then INT_MAX else count) = min count INT_MAX := by
    by_cases h : count > INT_MAX
    · simp [h, Nat.min_eq_right (Nat.le_of_lt h)]
    · simp [h, Nat.min_eq_left (Nat.le_of_not_gt h)]
  refine ⟨?_, ?_, ?_⟩
  · unfold php_crypto_stream_read
    simp only [hlen]
    split
    · exact ⟨[], rfl, by simp⟩
    · split
      · exact ⟨_, rfl, by simp⟩
      · exact ⟨_, rfl, by simp⟩
  · intro h
    simp only [php_crypto_stream_read, hlen, h, if_true]
    exact ⟨Int.toNat_of_nonneg (le_of_lt h), trivial⟩
  · intro h
    have h1 : ¬ (O.BIO_read stream.abstract.bio (min count INT_MAX)).1 > 0 := not_lt.mpr h
    simp only [php_crypto_stream_read, hlen, h1, if_false]
    split <;> exact ⟨rfl, rfl⟩

/-- C10 at a chain that delivers five bytes, and at a drained chain that is
not to be retried. -/
theorem read_contract_witness :
    (((php_crypto_stream_read (sampleEngine true) (readyOps 5) fileStream 16).ret : Int) = 5 ∧
      (php_crypto_stream_read (sampleEngine true) (readyOps 5) fileStream 16).stream.eof =
        false) ∧
    ((php_crypto_stream_read (sampleEngine true) drainedOps fileStream 16).ret = 0 ∧
      (php_crypto_stream_read (sampleEngine true) drainedOps fileStream 16).stream.eof =
        true) :=
  ⟨(read_contract (sampleEngine true) (readyOps 5) fileStream 16).2.1 (by decide),
   (read_contract (sampleEngine true) drainedOps fileStream 16).2.2 (by decide)⟩

/-! ## The `auth_enc` flag of an opened stream -/

/-- Lines 235-238 leave the chain and turn the flag on for an authenticated mode. -/
theorem mark_auth_enc_data (mode : php_crypto_cipher_mode) (st : ConfigState) :
    (mark_auth_enc mode st).data =
      { bio := st.data.bio, auth_enc := st.data.auth_enc || mode.auth_enc } := by
  unfold mark_auth_enc
  cases mode.auth_enc <;> simp

/-- The `tag` entry changes nothing but the error log. -/
theorem tag_entry_data (mode : php_crypto_cipher_mode) (enc : Int) (pz_tag : Option Zval)
    (st st2 : ConfigState) (h : tag_entry mode enc pz_tag st = some st2) :
    st2.data = st.data := by
  unfold tag_entry at h
  split at h
  · simp only [Option.some.injEq] at h; rw [← h]
  · split at h
    · simp only [Option.some.injEq] at h; rw [← h]; rfl
    · split at h
      · exact absurd h (by simp)
      · simp only [Option.some.injEq] at h; rw [← h]

/-- The `aad` entry changes nothing but the error log. -/
theorem aad_entry_data (mode : php_crypto_cipher_mode) (pz_aad : Option Zval)
    (st : ConfigState) : (aad_entry mode pz_aad st).data = st.data := by
  unfold aad_entry
  split
  · rfl
  · split <;> rfl

/-- Writing the associated data keeps the algorithm of the node on top, the rest
of the chain and the flag. -/
theorem set_cipher_write_aad_data (E : Engine) (st : ConfigState) (ctx : EVP_CIPHER_CTX)
    (next : BIO) (pz_tag pz_aad : Option Zval) (r : ZendResult) (st1 : ConfigState)
    (h : set_cipher_write_aad E st ctx next pz_tag pz_aad = .ok (r, st1)) :
    ∃ ctx1, ctx1.cipher = ctx.cipher ∧
      st1.data = { bio := BIO.cipher ctx1 next, auth_enc := st.data.auth_enc } := by
  unfold set_cipher_write_aad at h
  cases hargs : write_aad_args E pz_tag pz_aad with
  | error f => simp [hargs] at h
  | ok p =>
    simp only [hargs] at h
    split at h <;>
      · simp only [Except.ok.injEq, Prod.mk.injEq] at h
        rw [← h.2]
        refine ⟨_, ?_, rfl⟩
        rfl

/-- Handing tag and associated data to the context keeps the algorithm of the
node on top, the rest of the chain and the flag. -/
theorem set_cipher_tag_aad_data (E : Engine) (st : ConfigState) (ctx : EVP_CIPHER_CTX)
    (next : BIO) (mode : php_crypto_cipher_mode) (pz_tag pz_aad : Option Zval)
    (r : ZendResult) (st1 : ConfigState)
    (hst : st.data.bio = BIO.cipher ctx next)
    (h : set_cipher_tag_aad E st ctx next mode pz_tag pz_aad = .ok (r, st1)) :
    ∃ ctx1, ctx1.cipher = ctx.cipher ∧
      st1.data = { bio := BIO.cipher ctx1 next, auth_enc := st.data.auth_enc } := by
  unfold set_cipher_tag_aad at h
  split at h
  · split at h
    · split at h
      · obtain ⟨c, hc, hd⟩ := set_cipher_write_aad_data E st _ next _ _ r st1 h
        exact ⟨c, hc, hd⟩
      · simp only [Except.ok.injEq, Prod.mk.injEq] at h
        rw [← h.2]
        refine ⟨_, ?_, rfl⟩
        rfl
    · exact set_cipher_write_aad_data E st _ next _ _ r st1 h
  · simp only [Except.ok.injEq, Prod.mk.injEq] at h
    rw [← h.2]
    refine ⟨ctx, rfl, ?_⟩
    rw [← hst]

/-- A successful run of lines 235-281 pushes one node with the resolved algorithm
and turns the flag on when that algorithm is authenticated. -/
theorem set_cipher_node_success (E : Engine) (st : ConfigState) (ht : HashTable) (enc : Int)
    (cipher : EVP_CIPHER) (key iv : Bytes) (st1 : ConfigState)
    (h : set_cipher_node E st ht enc cipher key iv = .ok (ZendResult.SUCCESS, st1)) :
    ∃ ctx, ctx.cipher = cipher ∧
      st1.data = { bio := BIO.cipher ctx st.data.bio,
                   auth_enc := st.data.auth_enc ||
                     (E.php_crypto_get_cipher_mode cipher).auth_enc } := by
  unfold set_cipher_node at h
  simp only at h
  split at h
  · simp at h
  · rename_i st2 htag
    have h2 := tag_entry_data _ _ _ _ _ htag
    have h3 := aad_entry_data (E.php_crypto_get_cipher_mode cipher)
      (zend_hash_find ht (cstr "aad")) st2
    have hm := mark_auth_enc_data (E.php_crypto_get_cipher_mode cipher) st
    obtain ⟨ctx1, hc, hd⟩ := set_cipher_tag_aad_data E _ _ _ _ _ _ _ st1 rfl h
    refine ⟨ctx1, hc, ?_⟩
    rw [hd]
    simp only [ConfigState.with_ctx, h3, h2, hm]

/-- A successful `php_crypto_stream_set_cipher` pushes one cipher node on the old
chain; the flag afterwards is the flag before or-ed with whether the algorithm
of the new node is authenticated. It is never cleared. -/
theorem set_cipher_success (E : Engine) (st : ConfigState) (pz_cipher : Zval)
    (st1 : ConfigState)
    (h : php_crypto_stream_set_cipher E st pz_cipher = .ok (ZendResult.SUCCESS, st1)) :
    ∃ ctx, st1.data = { bio := BIO.cipher ctx st.data.bio,
                        auth_enc := st.data.auth_enc ||
                          (E.php_crypto_get_cipher_mode ctx.cipher).auth_enc } := by
  unfold php_crypto_stream_set_cipher at h
  simp only at h
  repeat' split at h
  all_goals first
    | (exact absurd h (by simp))
    | (obtain ⟨ctx, hc, hd⟩ := set_cipher_node_success E st _ _ _ _ _ st1 h
       exact ⟨ctx, by rw [hc]; exact hd⟩)

/-- The lookup finds an authenticated node in a chain with a cipher node on top
exactly when that node is authenticated or the rest of the chain has one. -/
theorem get_first_auth_bio_cipher (E : Engine) (ctx : EVP_CIPHER_CTX) (next : BIO) :
    (php_crypto_stream_get_first_auth_bio E ( BIO.cipher ctx next)).isSome =
      ((E.php_crypto_get_cipher_mode ctx.cipher).auth_enc ||
        (php_crypto_stream_get_first_auth_bio E next).isSome) := by
  rw [php_crypto_stream_get_first_auth_bio]
  cases (E.php_crypto_get_cipher_mode ctx.cipher).auth_enc <;> simp

/-- One pass of the filter loop keeps the relation: the flag is its content
`junk` at allocation or-ed with whether the chain has an authenticated node. -/
theorem opener_filter_item_auth_enc (E : Engine) (junk : Bool) (st st1 : ConfigState)
    (pz_filter_item : Zval)
    (hinv : st.data.auth_enc =
      (junk || (php_crypto_stream_get_first_auth_bio E st.data.bio).isSome))
    (h : opener_filter_item E st pz_filter_item = .ok (true, st1)) :
    st1.data.auth_enc =
      (junk || (php_crypto_stream_get_first_auth_bio E st1.data.bio).isSome) := by
  unfold opener_filter_item at h
  repeat' split at h
  all_goals first
    | (simp at h; done)
    | skip
  rename_i st2 hset
  simp only [Except.ok.injEq, Prod.mk.injEq, true_and] at h
  subst h
  obtain ⟨ctx, hd⟩ := set_cipher_success E st _ st2 hset
  rw [hd]
  simp only [get_first_auth_bio_cipher, hinv]
  cases junk <;> cases (E.php_crypto_get_cipher_mode ctx.cipher).auth_enc <;> simp

/-- The filter loop keeps the relation between the flag and the chain. -/
theorem opener_filter_loop_auth_enc (E : Engine) (junk : Bool) (ht : HashTable)
    (st st1 : ConfigState)
    (hinv : st.data.auth_enc =
      (junk || (php_crypto_stream_get_first_auth_bio E st.data.bio).isSome))
    (h : opener_filter_loop E st ht = .ok (true, st1)) :
    st1.data.auth_enc =
      (junk || (php_crypto_stream_get_first_auth_bio E st1.data.bio).isSome) := by
  induction ht generalizing st with
  | nil =>
    simp only [opener_filter_loop, Except.ok.injEq, Prod.mk.injEq, true_and] at h
    subst h
    exact hinv
  | cons item rest ih =>
    obtain ⟨k, pz⟩ := item
    simp only [opener_filter_loop] at h
    split at h
    · exact absurd h (by simp)
    · exact absurd h (by simp)
    · rename_i st2 hitem
      exact ih st2 (opener_filter_item_auth_enc E junk st st2 pz hinv hitem) h

/-- What the opener leaves in the flag: for every stream it returns, `auth_enc`
is the content of that field in the block returned by `emalloc`, or-ed with
whether the chain has an authenticated cipher node. With a zeroed block the flag
tells exactly whether an authenticated cipher filter was applied. -/
theorem opener_auth_enc (E : Engine) (V : OpenerEnv) (path mode : Bytes)
    (disable_open_basedir assume_realpath : Bool) (filters : Option Zval)
    (error_action : Nat) (res : OpenerResult) (stream : php_stream)
    (h : php_crypto_stream_opener E V path mode disable_open_basedir assume_realpath filters
      error_action = .ok res)
    (hs : res.stream = some stream) :
    stream.abstract.auth_enc =
      (V.emalloc_auth_enc ||
        (php_crypto_stream_get_first_auth_bio E stream.abstract.bio).isSome) := by
  unfold php_crypto_stream_opener at h
  simp only at h
  generalize (if strncasecmp V.PHP_CRYPTO_STREAM_FILE_SCHEME path
      V.PHP_CRYPTO_STREAM_FILE_SCHEME_SIZE = 0
    then List.drop V.PHP_CRYPTO_STREAM_FILE_SCHEME_SIZE path else path) = path1 at h
  split at h
  · simp only [Except.ok.injEq] at h
    subst h
    exact absurd hs (by simp)
  · split at h
    · simp only [Except.ok.injEq] at h
      subst h
      exact absurd hs (by simp)
    · split at h
      · simp only [Except.ok.injEq] at h
        subst h
        exact absurd hs (by simp)
      · rename_i realpath _ f _
        split at h
        · exact absurd h (by simp)
        · simp only [Except.ok.injEq] at h
          subst h
          exact absurd hs (by simp)
        · rename_i st hconf
          have hst : st.data.auth_enc =
              (V.emalloc_auth_enc ||
                (php_crypto_stream_get_first_auth_bio E st.data.bio).isSome) := by
            split at hconf
            · simp only [Except.ok.injEq, Prod.mk.injEq, true_and] at hconf
              subst hconf
              simp [php_crypto_stream_get_first_auth_bio]
            · exact opener_filter_loop_auth_enc E V.emalloc_auth_enc _ _ st
                (by simp [php_crypto_stream_get_first_auth_bio]) hconf
            · exact absurd hconf (by simp)
          split at h
          · simp only [Except.ok.injEq] at h
            subst h
            simp only [Option.some.injEq] at hs
            subst hs
            exact hst
          · simp only [Except.ok.injEq] at h
            subst h
            exact absurd hs (by simp)

/-- C11, evaluated where the code departs from it: the opener takes the stream
data from `emalloc` and never writes `auth_enc` itself (lines 311-315); only an
authenticated cipher filter writes it, to `1` (lines 236-238). When the block
holds a non-zero byte there, a stream opened without any filter, and a stream
opened with the single non-authenticated filter `aes-256-cbc`, both come back
with `auth_enc` set although no node of the chain is authenticated. -/
theorem opener_auth_enc_uninitialised :
    php_crypto_stream_opener (sampleEngine true) (sampleEnv true) (cstr "/tmp/f") (cstr "rb")
        false false none 0 =
      .ok { stream := some
              { abstract := { bio := st0.data.bio, auth_enc := true }, eof := false },
            opened_path := some (cstr "/tmp/f"),
            error_action := 1,
            errors := [] } ∧
    php_crypto_stream_get_first_auth_bio (sampleEngine true) st0.data.bio = none ∧
    php_crypto_stream_opener (sampleEngine true) (sampleEnv true) (cstr "/tmp/f") (cstr "rb")
        false false
        (some (.array [(ZKey.idx 0,
          .array (cipherItem "encrypt" "aes-256-cbc" (bytes 32) (bytes 16) []))])) 0 =
      .ok { stream := some
              { abstract :=
                  { bio := BIO.cipher
                      { cipher := aes_256_cbc, key := bytes 32, iv := bytes 16, enc := 1,
                        calls := [] }
                      st0.data.bio,
                    auth_enc := true },
                eof := false },
            opened_path := some (cstr "/tmp/f"),
            error_action := 1,
            errors := [] } ∧
    php_crypto_stream_get_first_auth_bio (sampleEngine true)
        ( BIO.cipher
          { cipher := aes_256_cbc, key := bytes 32, iv := bytes 16, enc := 1, calls := [] }
          st0.data.bio) = none := by
  refine ⟨by decide, by decide, by decide, by decide⟩

end CryptoStream
